import Mathlib

/-!
Shallow embedding of `custom_components/roborock/sensor.py` from the
`homeassistant-roborock` repository.

The module is a static table of field-extraction descriptors
(`VACUUM_SENSORS`) plus one adapter class (`RoborockSensor`) with three
methods (`_extract_attributes`, `_handle_coordinator_update`,
`_determine_native_value`) and a platform setup function
(`async_setup_entry`).  Python values flowing through the module are
modelled by the inductive `PyVal`; Python exceptions by `PyErr` together
with the `Except` monad; Python floats by `ℚ` (all transforms here are
exact decimal arithmetic); machine-level attribute access (`getattr`,
`hasattr`) by `pygetattr` / `pyhasattr` over the container structures.

The container classes (`api/containers.py`, `api/typing.py`) and
`device.py` (`parse_datetime_time`) belong to this repository but are not
under `src/`; they are modelled from the spec where so noted.
-/

namespace Roborock

/-- Kinds of Python exception that the embedded code can raise. -/
inductive PyErr where
  | attributeError
  | typeError
  | valueError
  | indexError
  deriving DecidableEq, Repr

/-- Modelled from the spec: the DND-timer container from `api/containers.py`
(not under `src/`).  Only the four fields this module reads are modelled;
each may be `None`. -/
structure DndTimer where
  startHour : Option Int := Option.none
  startMinute : Option Int := Option.none
  endHour : Option Int := Option.none
  endMinute : Option Int := Option.none
  deriving DecidableEq, Repr

/-- Modelled from the spec: the last-clean-record container from
`api/containers.py` (not under `src/`); the fields this module reads. -/
structure CleanRecord where
  begin_ : Option Int := Option.none
  end_ : Option Int := Option.none
  duration : Option Int := Option.none
  area : Option Int := Option.none
  deriving DecidableEq, Repr

/-- Modelled from the spec: the device-status container from
`api/containers.py` (not under `src/`); the fields this module reads. -/
structure Status where
  cleanTime : Option Int := Option.none
  cleanArea : Option Int := Option.none
  deriving DecidableEq, Repr

/-- Modelled from the spec: the clean-summary container from
`api/containers.py` (not under `src/`); the fields this module reads. -/
structure CleanSummary where
  cleanTime : Option Int := Option.none
  cleanArea : Option Int := Option.none
  cleanCount : Option Int := Option.none
  dustCollectionCount : Option Int := Option.none
  deriving DecidableEq, Repr

/-- Modelled from the spec: the consumable container from
`api/containers.py` (not under `src/`); the fields this module reads. -/
structure Consumable where
  mainBrushWorkTime : Option Int := Option.none
  sideBrushWorkTime : Option Int := Option.none
  filterWorkTime : Option Int := Option.none
  sensorDirtyTime : Option Int := Option.none
  deriving DecidableEq, Repr

/-- Modelled from the spec: the per-device status structure distributed by
the coordinator (`RoborockDeviceProp`), holding the five nested parent
objects this module addresses via `RoborockDevicePropField`. -/
structure DeviceProp where
  dndTimer : Option DndTimer := Option.none
  status : Option Status := Option.none
  cleanSummary : Option CleanSummary := Option.none
  consumable : Option Consumable := Option.none
  lastCleanRecord : Option CleanRecord := Option.none
  deriving DecidableEq, Repr

/-- A Python runtime value as it flows through this module: `None`,
integers, floats (modelled exactly as rationals), lists, `datetime`
objects (carried as an epoch instant plus a timezone-awareness flag), and
the container objects. -/
inductive PyVal where
  | none
  | int (n : Int)
  | rat (q : ℚ)
  | list (vs : List PyVal)
  | datetime (epoch : ℚ) (aware : Bool)
  | dnd (t : DndTimer)
  | record (r : CleanRecord)
  | status (s : Status)
  | summary (s : CleanSummary)
  | consumable (c : Consumable)
  | deviceProp (p : DeviceProp)

/-- Python truthiness for the values above: `None` is falsy, numbers are
falsy exactly at zero, lists are falsy exactly when empty, `datetime`
objects and container objects are always truthy. -/
def PyVal.truthy : PyVal → Bool
  | .none => false
  | .int n => n != 0
  | .rat q => q != 0
  | .list vs => !vs.isEmpty
  | .datetime _ _ => true
  | .dnd _ => true
  | .record _ => true
  | .status _ => true
  | .summary _ => true
  | .consumable _ => true
  | .deviceProp _ => true

/-- An optional integer field as a Python attribute value. -/
def ofOptInt : Option Int → PyVal
  | some n => .int n
  | Option.none => .none

def ofOptDnd : Option DndTimer → PyVal
  | some t => .dnd t
  | Option.none => .none

def ofOptRecord : Option CleanRecord → PyVal
  | some r => .record r
  | Option.none => .none

def ofOptStatus : Option Status → PyVal
  | some s => .status s
  | Option.none => .none

def ofOptSummary : Option CleanSummary → PyVal
  | some s => .summary s
  | Option.none => .none

def ofOptConsumable : Option Consumable → PyVal
  | some c => .consumable c
  | Option.none => .none

/-- Modelled from the spec: the string constants of
`RoborockDevicePropField`, `DNDTimerField`, `CleanRecordField`,
`StatusField`, `CleanSummaryField` and `ConsumableField`
(`api/containers.py` / `api/typing.py`, not under `src/`): attribute names
into the per-device status structure and its nested parents. -/
def RoborockDevicePropField.DND_TIMER : String := "dnd_timer"

def RoborockDevicePropField.STATUS : String := "status"

def RoborockDevicePropField.CLEAN_SUMMARY : String := "clean_summary"

def RoborockDevicePropField.CONSUMABLE : String := "consumable"

def RoborockDevicePropField.LAST_CLEAN_RECORD : String := "last_clean_record"

def DNDTimerField.START_HOUR : String := "start_hour"

def DNDTimerField.START_MINUTE : String := "start_minute"

def DNDTimerField.END_HOUR : String := "end_hour"

def DNDTimerField.END_MINUTE : String := "end_minute"

def CleanRecordField.BEGIN : String := "begin"

def CleanRecordField.END : String := "end"

def CleanRecordField.DURATION : String := "duration"

def CleanRecordField.AREA : String := "area"

def StatusField.CLEAN_TIME : String := "clean_time"

def StatusField.CLEAN_AREA : String := "clean_area"

def CleanSummaryField.CLEAN_TIME : String := "clean_time"

def CleanSummaryField.CLEAN_AREA : String := "clean_area"

def CleanSummaryField.CLEAN_COUNT : String := "clean_count"

def ConsumableField.MAIN_BRUSH_WORK_TIME : String := "main_brush_work_time"

def ConsumableField.SIDE_BRUSH_WORK_TIME : String := "side_brush_work_time"

def ConsumableField.FILTER_WORK_TIME : String := "filter_work_time"

def ConsumableField.SENSOR_DIRTY_TIME : String := "sensor_dirty_time"

/-- Python `getattr(obj, name)`: reads an attribute of a container object,
raising `AttributeError` when the object (in particular `None`) has no
attribute of that name.  Only the attribute names this module uses are
modelled; on every other receiver/name pair the lookup fails as it does on
`None`. -/
def pygetattr : PyVal → String → Except PyErr PyVal
  | .deviceProp p, "dnd_timer" => .ok (ofOptDnd p.dndTimer)
  | .deviceProp p, "status" => .ok (ofOptStatus p.status)
  | .deviceProp p, "clean_summary" => .ok (ofOptSummary p.cleanSummary)
  | .deviceProp p, "consumable" => .ok (ofOptConsumable p.consumable)
  | .deviceProp p, "last_clean_record" => .ok (ofOptRecord p.lastCleanRecord)
  | .dnd t, "start_hour" => .ok (ofOptInt t.startHour)
  | .dnd t, "start_minute" => .ok (ofOptInt t.startMinute)
  | .dnd t, "end_hour" => .ok (ofOptInt t.endHour)
  | .dnd t, "end_minute" => .ok (ofOptInt t.endMinute)
  | .record r, "begin" => .ok (ofOptInt r.begin_)
  | .record r, "end" => .ok (ofOptInt r.end_)
  | .record r, "duration" => .ok (ofOptInt r.duration)
  | .record r, "area" => .ok (ofOptInt r.area)
  | .status s, "clean_time" => .ok (ofOptInt s.cleanTime)
  | .status s, "clean_area" => .ok (ofOptInt s.cleanArea)
  | .summary s, "clean_time" => .ok (ofOptInt s.cleanTime)
  | .summary s, "clean_area" => .ok (ofOptInt s.cleanArea)
  | .summary s, "clean_count" => .ok (ofOptInt s.cleanCount)
  | .summary s, "dust_collection_count" => .ok (ofOptInt s.dustCollectionCount)
  | .consumable c, "main_brush_work_time" => .ok (ofOptInt c.mainBrushWorkTime)
  | .consumable c, "side_brush_work_time" => .ok (ofOptInt c.sideBrushWorkTime)
  | .consumable c, "filter_work_time" => .ok (ofOptInt c.filterWorkTime)
  | .consumable c, "sensor_dirty_time" => .ok (ofOptInt c.sensorDirtyTime)
  | _, _ => .error .attributeError

/-- Python `hasattr(obj, name)`. -/
def pyhasattr (v : PyVal) (k : String) : Bool :=
  match pygetattr v k with
  | .ok _ => true
  | .error _ => false

/-- The coordinator's data dictionary: device id → per-device status
structure (`coordinator.data`). -/
abbrev CoordData := List (String × DeviceProp)

/-- `coordinator.data.get(device_id)`: the per-device status structure, or
`None` when the device id is absent. -/
def coordGet (c : CoordData) (d : String) : PyVal :=
  match c.lookup d with
  | some p => .deviceProp p
  | Option.none => .none

/-- Ambient environment for the one clock-reading helper: the current
epoch second (`datetime.now()`) and the local timezone's UTC offset in
seconds. -/
structure Env where
  now : Int
  tzOffset : Int
  deriving DecidableEq, Repr

/-- Modelled from the spec: `parse_datetime_time` from `device.py` (not
under `src/`).  The spec says it combines two integer fields into a
time-of-day value and converts it to an absolute timestamp; modelled as
the epoch of the next occurrence (today or tomorrow) of the given local
wall-clock time, seconds zeroed. -/
def parse_datetime_time (env : Env) (hour minute : Int) : Int :=
  let localNow := env.now + env.tzOffset
  let dayStart := localNow - localNow % 86400
  let candidate := dayStart + hour * 3600 + minute * 60
  let adjusted := if candidate < localNow then candidate + 86400 else candidate
  adjusted - env.tzOffset

/-- The transform lambda of the two DnD descriptors:
`lambda values: parse_datetime_time(time(hour=values[0], minute=values[1]))`.
Indexing a too-short list raises `IndexError`; `time(...)` raises
`TypeError` on non-integer arguments and `ValueError` on out-of-range
hour/minute; the result is a float epoch. -/
def dndValueLambda (env : Env) : PyVal → Except PyErr PyVal
  | .list (.int h :: .int m :: _) =>
      if 0 ≤ h ∧ h < 24 ∧ 0 ≤ m ∧ m < 60 then
        .ok (.rat ((parse_datetime_time env h m : Int) : ℚ))
      else .error .valueError
  | .list (_ :: _ :: _) => .error .typeError
  | .list _ => .error .indexError
  | _ => .error .typeError

/-- The transform lambda of the three area descriptors:
`lambda value: value / 1000000` (Python true division, yielding a float;
non-numeric operands raise `TypeError`). -/
def areaValueLambda (_env : Env) : PyVal → Except PyErr PyVal
  | .int n => .ok (.rat ((n : ℚ) / 1000000))
  | .rat q => .ok (.rat (q / 1000000))
  | _ => .error .typeError

/-- The semantic device classes used by this module
(`SensorDeviceClass.TIMESTAMP` / `SensorDeviceClass.DURATION`). -/
inductive SensorDeviceClass where
  | timestamp
  | duration
  deriving DecidableEq, Repr

/-- `RoborockSensorDescription`: the descriptor dataclass, extending the
host platform's `SensorEntityDescription` with `attributes`, `parent_key`,
`keys` and `value` (defaults as in the source).  A transform receives the
ambient environment because the DnD lambda reads the clock. -/
structure RoborockSensorDescription where
  key : String := ""
  name : String := ""
  icon : String := ""
  device_class : Option SensorDeviceClass := Option.none
  state_class : Option String := Option.none
  native_unit_of_measurement : Option String := Option.none
  entity_category : Option String := Option.none
  attributes : List String := []
  parent_key : Option String := Option.none
  keys : Option (List String) := Option.none
  value : Option (Env → PyVal → Except PyErr PyVal) := Option.none

/-- Python truthiness of an `Optional[str]` field (`None` and `""` falsy). -/
def optStrTruthy : Option String → Bool
  | Option.none => false
  | some s => !s.isEmpty

/-- Python truthiness of an `Optional[list]` field (`None` and `[]` falsy). -/
def optListTruthy : Option (List String) → Bool
  | Option.none => false
  | some l => !l.isEmpty

def descDndStart : RoborockSensorDescription :=
  { key := "start"
    keys := some [DNDTimerField.START_HOUR, DNDTimerField.START_MINUTE]
    value := some dndValueLambda
    icon := "mdi:minus-circle-off"
    name := "DnD start"
    device_class := some SensorDeviceClass.timestamp
    parent_key := some RoborockDevicePropField.DND_TIMER
    entity_category := some "diagnostic" }

def descDndEnd : RoborockSensorDescription :=
  { key := "end"
    keys := some [DNDTimerField.END_HOUR, DNDTimerField.END_MINUTE]
    value := some dndValueLambda
    icon := "mdi:minus-circle-off"
    name := "DnD end"
    device_class := some SensorDeviceClass.timestamp
    parent_key := some RoborockDevicePropField.DND_TIMER
    entity_category := some "diagnostic" }

def descLastCleanStart : RoborockSensorDescription :=
  { key := CleanRecordField.BEGIN
    icon := "mdi:clock-time-twelve"
    name := "Last clean start"
    device_class := some SensorDeviceClass.timestamp
    parent_key := some RoborockDevicePropField.LAST_CLEAN_RECORD
    entity_category := some "diagnostic" }

def descLastCleanEnd : RoborockSensorDescription :=
  { key := CleanRecordField.END
    icon := "mdi:clock-time-twelve"
    device_class := some SensorDeviceClass.timestamp
    parent_key := some RoborockDevicePropField.LAST_CLEAN_RECORD
    name := "Last clean end"
    entity_category := some "diagnostic" }

def descLastCleanDuration : RoborockSensorDescription :=
  { native_unit_of_measurement := some "s"
    key := CleanRecordField.DURATION
    icon := "mdi:timer-sand"
    device_class := some SensorDeviceClass.duration
    parent_key := some RoborockDevicePropField.LAST_CLEAN_RECORD
    name := "Last clean duration"
    entity_category := some "diagnostic" }

def descLastCleanArea : RoborockSensorDescription :=
  { native_unit_of_measurement := some "m²"
    key := CleanRecordField.AREA
    value := some areaValueLambda
    icon := "mdi:texture-box"
    parent_key := some RoborockDevicePropField.LAST_CLEAN_RECORD
    name := "Last clean area"
    entity_category := some "diagnostic" }

def descCurrentCleanDuration : RoborockSensorDescription :=
  { native_unit_of_measurement := some "s"
    key := StatusField.CLEAN_TIME
    icon := "mdi:timer-sand"
    device_class := some SensorDeviceClass.duration
    parent_key := some RoborockDevicePropField.STATUS
    name := "Current clean duration"
    entity_category := some "diagnostic" }

def descCurrentCleanArea : RoborockSensorDescription :=
  { native_unit_of_measurement := some "m²"
    key := StatusField.CLEAN_AREA
    value := some areaValueLambda
    icon := "mdi:texture-box"
    parent_key := some RoborockDevicePropField.STATUS
    entity_category := some "diagnostic"
    name := "Current clean area" }

def descTotalDuration : RoborockSensorDescription :=
  { native_unit_of_measurement := some "s"
    device_class := some SensorDeviceClass.duration
    key := CleanSummaryField.CLEAN_TIME
    icon := "mdi:timer-sand"
    parent_key := some RoborockDevicePropField.CLEAN_SUMMARY
    name := "Total duration"
    entity_category := some "diagnostic" }

def descTotalCleanArea : RoborockSensorDescription :=
  { native_unit_of_measurement := some "m²"
    key := CleanSummaryField.CLEAN_AREA
    value := some areaValueLambda
    icon := "mdi:texture-box"
    parent_key := some RoborockDevicePropField.CLEAN_SUMMARY
    name := "Total clean area"
    entity_category := some "diagnostic" }

def descTotalCleanCount : RoborockSensorDescription :=
  { native_unit_of_measurement := some ""
    key := CleanSummaryField.CLEAN_COUNT
    icon := "mdi:counter"
    state_class := some "total_increasing"
    parent_key := some RoborockDevicePropField.CLEAN_SUMMARY
    name := "Total clean count"
    entity_category := some "diagnostic" }

def descTotalDustCollectionCount : RoborockSensorDescription :=
  { native_unit_of_measurement := some ""
    key := CleanSummaryField.CLEAN_COUNT
    icon := "mdi:counter"
    state_class := some "total_increasing"
    parent_key := some RoborockDevicePropField.CLEAN_SUMMARY
    name := "Total dust collection count"
    entity_category := some "diagnostic" }

def descMainBrushLeft : RoborockSensorDescription :=
  { native_unit_of_measurement := some "s"
    key := ConsumableField.MAIN_BRUSH_WORK_TIME
    icon := "mdi:brush"
    device_class := some SensorDeviceClass.duration
    parent_key := some RoborockDevicePropField.CONSUMABLE
    name := "Main brush left"
    entity_category := some "diagnostic" }

def descSideBrushLeft : RoborockSensorDescription :=
  { native_unit_of_measurement := some "s"
    key := ConsumableField.SIDE_BRUSH_WORK_TIME
    icon := "mdi:brush"
    device_class := some SensorDeviceClass.duration
    parent_key := some RoborockDevicePropField.CONSUMABLE
    name := "Side brush left"
    entity_category := some "diagnostic" }

def descFilterLeft : RoborockSensorDescription :=
  { native_unit_of_measurement := some "s"
    key := ConsumableField.FILTER_WORK_TIME
    icon := "mdi:air-filter"
    device_class := some SensorDeviceClass.duration
    parent_key := some RoborockDevicePropField.CONSUMABLE
    name := "Filter left"
    entity_category := some "diagnostic" }

def descSensorDirtyLeft : RoborockSensorDescription :=
  { native_unit_of_measurement := some "s"
    key := ConsumableField.SENSOR_DIRTY_TIME
    icon := "mdi:eye-outline"
    device_class := some SensorDeviceClass.duration
    parent_key := some RoborockDevicePropField.CONSUMABLE
    name := "Sensor dirty left"
    entity_category := some "diagnostic" }

/-- The `VACUUM_SENSORS` table, in source (insertion) order. -/
def VACUUM_SENSORS : List (String × RoborockSensorDescription) :=
  [ ("dnd_start", descDndStart)
  , ("dnd_end", descDndEnd)
  , ("last_clean_start", descLastCleanStart)
  , ("last_clean_end", descLastCleanEnd)
  , ("last_clean_duration", descLastCleanDuration)
  , ("last_clean_area", descLastCleanArea)
  , ("current_clean_time", descCurrentCleanDuration)
  , ("current_area", descCurrentCleanArea)
  , ("clean_history_total_duration", descTotalDuration)
  , ("clean_history_total_area", descTotalCleanArea)
  , ("clean_history_count", descTotalCleanCount)
  , ("clean_history_dust_collection_count", descTotalDustCollectionCount)
  , ("consumable_main_brush_left", descMainBrushLeft)
  , ("consumable_side_brush_left", descSideBrushLeft)
  , ("consumable_filter_left", descFilterLeft)
  , ("consumable_sensor_dirty_left", descSensorDirtyLeft) ]

/-- Lines 310-312 of `_determine_native_value`: resolve the (optionally
nested) data object, given `data = coordinator.data.get(self._device_id)`.
`if self.entity_description.parent_key: data = getattr(data, ...)`. -/
def getData (data0 : PyVal) (desc : RoborockSensorDescription) : Except PyErr PyVal :=
  if optStrTruthy desc.parent_key then pygetattr data0 (desc.parent_key.getD "")
  else pure data0

/-- Lines 314-319 of `_determine_native_value`: read the raw value —
either the list of values of `keys`, or the value of `key`. -/
def getRaw (desc : RoborockSensorDescription) (data : PyVal) : Except PyErr PyVal :=
  if optListTruthy desc.keys then do
    let vs ← (desc.keys.getD []).mapM (fun k => pygetattr data k)
    pure (.list vs)
  else pygetattr data desc.key

/-- Lines 321-322 of `_determine_native_value`: apply the optional
transform, but only when both the transform and the raw value are truthy. -/
def applyTransform (env : Env) (desc : RoborockSensorDescription) (v : PyVal) :
    Except PyErr PyVal :=
  match desc.value with
  | some f => if v.truthy then f env v else pure v
  | Option.none => pure v

/-- `datetime.fromtimestamp(value)`: a naive local `datetime` denoting the
epoch instant `value`; raises `TypeError` on non-numeric arguments. -/
def datetime_fromtimestamp : PyVal → Except PyErr PyVal
  | .int n => .ok (.datetime (n : ℚ) false)
  | .rat q => .ok (.datetime q false)
  | _ => .error .typeError

/-- `dt.astimezone(dt_util.UTC)`: the same instant as a timezone-aware UTC
`datetime`. -/
def PyVal.astimezoneUTC : PyVal → Except PyErr PyVal
  | .datetime e _ => .ok (.datetime e true)
  | _ => .error .typeError

/-- Lines 324-329 of `_determine_native_value`: when the device class is
`TIMESTAMP` and the value is truthy, convert the epoch value via
`datetime.fromtimestamp` (the walrus-bound result is checked for
truthiness, which always holds of a `datetime`) and return it converted to
aware UTC; otherwise return the value unchanged. -/
def timestampStep (desc : RoborockSensorDescription) (v : PyVal) : Except PyErr PyVal :=
  if desc.device_class = some SensorDeviceClass.timestamp ∧ v.truthy = true then do
    let nd ← datetime_fromtimestamp v
    if nd.truthy then nd.astimezoneUTC else pure v
  else pure v

/-- The extraction-and-transform part of `_determine_native_value`
(lines 310-322), given the per-device data object. -/
def extractTransformed (env : Env) (data0 : PyVal) (desc : RoborockSensorDescription) :
    Except PyErr PyVal := do
  let data ← getData data0 desc
  let raw ← getRaw desc data
  applyTransform env desc raw

/-- `RoborockSensor._determine_native_value` (lines 308-331). -/
def determineNativeValue (env : Env) (coord : CoordData) (deviceId : String)
    (desc : RoborockSensorDescription) : Except PyErr PyVal := do
  let tv ← extractTransformed env (coordGet coord deviceId) desc
  timestampStep desc tv

/-- `RoborockSensor._extract_attributes` (lines 286-294): a dict mapping
each declared attribute name that `data` has to the constant `value`,
which is `None`. -/
def extractAttributes (desc : RoborockSensorDescription) (data : PyVal) :
    List (String × PyVal) :=
  (desc.attributes.filter (fun a => pyhasattr data a)).map (fun a => (a, PyVal.none))

/-- The state a `RoborockSensor` instance holds: the last published native
value and extra state attributes. -/
structure SensorState where
  attr_native_value : PyVal
  attr_extra_state_attributes : List (String × PyVal)

/-- The mutable world a coordinator update acts on: the coordinator's data
dictionary and the sensor's own state. -/
structure World where
  coordData : CoordData
  sensor : SensorState

/-- `RoborockSensor._handle_coordinator_update` (lines 296-306) as a
transition on the world; the returned flag records whether
`async_write_ha_state` was called. -/
def handleCoordinatorUpdateW (env : Env) (deviceId : String)
    (desc : RoborockSensorDescription) (w : World) : Except PyErr (World × Bool) := do
  let nativeValue ← determineNativeValue env w.coordData deviceId desc
  if nativeValue.truthy then
    let data := coordGet w.coordData deviceId
    pure ({ w with
            sensor := { attr_native_value := nativeValue
                        attr_extra_state_attributes := extractAttributes desc data } },
          true)
  else
    pure (w, false)

/-- A constructed sensor entity (`RoborockSensor.__init__`, lines 277-284,
keeping only what this module stores). -/
structure Entity where
  unique_id : String
  device_id : String
  desc : RoborockSensorDescription
  state : SensorState

/-- `RoborockSensor.__init__`: determine the initial native value (any
exception propagates out of the constructor) and extract the initial
attributes. -/
def initRoborockSensor (env : Env) (coord : CoordData) (deviceId : String)
    (uniqueId : String) (desc : RoborockSensorDescription) : Except PyErr Entity := do
  let nv ← determineNativeValue env coord deviceId desc
  pure { unique_id := uniqueId
         device_id := deviceId
         desc := desc
         state := { attr_native_value := nv
                    attr_extra_state_attributes :=
                      extractAttributes desc (coordGet coord deviceId) } }

/-- `homeassistant.util.slugify`: host-platform utility, outside this
repository; modelled as the identity (no claim depends on its output). -/
def slugify (s : String) : String := s

/-- The body of the inner loop of `async_setup_entry` (lines 251-267) for
one descriptor: read the parent data (`getattr` on the possibly-`None`
per-device structure), skip the entity when it is falsy (the debug log has
no observable effect and is omitted), otherwise construct the sensor and
append it. -/
def setupStep (env : Env) (coord : CoordData) (deviceId : String) (uniqueId : String)
    (acc : List Entity) (sensor : String) (desc : RoborockSensorDescription) :
    Except PyErr (List Entity) := do
  let parentKeyData ← pygetattr (coordGet coord deviceId) (desc.parent_key.getD "")
  if parentKeyData.truthy then do
    let e ← initRoborockSensor env coord deviceId (sensor ++ "_" ++ uniqueId) desc
    pure (acc ++ [e])
  else
    pure acc

/-- `async_setup_entry` (lines 240-269): iterate the device map and the
descriptor table, collecting the entities that get added. -/
def asyncSetupEntry (env : Env) (deviceMap : List String) (coord : CoordData) :
    Except PyErr (List Entity) :=
  deviceMap.foldlM
    (fun acc deviceId =>
      VACUUM_SENSORS.foldlM
        (fun acc2 sd => setupStep env coord deviceId (slugify deviceId) acc2 sd.1 sd.2)
        acc)
    []

/-- The numeric content of a Python value (`int` and `float` compare equal
across the two types in Python). -/
def PyVal.toNum : PyVal → Option ℚ
  | .int n => some ((n : Int) : ℚ)
  | .rat q => some q
  | _ => Option.none

/-- A value of a shape a leaf field can produce (possibly after the area
transform): `None` or a number. -/
def numish (v : PyVal) : Prop :=
  v = PyVal.none ∨ (∃ n, v = PyVal.int n) ∨ (∃ q, v = PyVal.rat q)

/-- `datetime.time` accepts exactly these hour/minute ranges. -/
def InRangeHM (h m : Int) : Prop := 0 ≤ h ∧ h < 24 ∧ 0 ≤ m ∧ m < 60

/-- A DND timer whose four fields are present in-range integers, so that
the DnD transform lambda cannot raise. -/
def DndTimer.wellFormed (t : DndTimer) : Prop :=
  ∃ sh sm eh em, t.startHour = some sh ∧ t.startMinute = some sm ∧
    t.endHour = some eh ∧ t.endMinute = some em ∧ InRangeHM sh sm ∧ InRangeHM eh em

/-- The proviso of the amended claim C3: the descriptor's parent lookup on
the device's status structure yields a present (truthy) object, and for a
key-list (DnD) descriptor the DND timer is well formed. -/
def updateSafe (p : DeviceProp) (desc : RoborockSensorDescription) : Prop :=
  (∃ v, pygetattr (PyVal.deviceProp p) (desc.parent_key.getD "") = Except.ok v ∧
     v.truthy = true)
  ∧ (optListTruthy desc.keys = true → ∃ t, p.dndTimer = some t ∧ t.wellFormed)

/-! Concrete fixtures used by the witness and counterexample theorems. -/

def env0 : Env := { now := 1700000000, tzOffset := 3600 }

def dndFull : DndTimer :=
  { startHour := some 22, startMinute := some 30
    endHour := some 8, endMinute := some 0 }

def recFull : CleanRecord :=
  { begin_ := some 1700000000, end_ := some 1700003600
    duration := some 3600, area := some 2500000 }

def statFull : Status := { cleanTime := some 1200, cleanArea := some 1500000 }

def summFull : CleanSummary :=
  { cleanTime := some 10000, cleanArea := some 99000000
    cleanCount := some 42, dustCollectionCount := some 7 }

def consFull : Consumable :=
  { mainBrushWorkTime := some 100, sideBrushWorkTime := some 200
    filterWorkTime := some 300, sensorDirtyTime := some 400 }

def propFull : DeviceProp :=
  { dndTimer := some dndFull, status := some statFull, cleanSummary := some summFull
    consumable := some consFull, lastCleanRecord := some recFull }

def coordFull : CoordData := [("dev", propFull)]

def sensor0 : SensorState :=
  { attr_native_value := PyVal.int 5, attr_extra_state_attributes := [] }

def worldFull : World := { coordData := coordFull, sensor := sensor0 }

/-- The world `worldFull` steps to on a coordinator update of the
total-clean-count sensor. -/
def worldFullAfter : World :=
  { coordData := coordFull
    sensor := { attr_native_value := PyVal.int 42, attr_extra_state_attributes := [] } }

/-- A device whose status snapshot carries no DND timer (`dnd_timer` is
`None`) but is otherwise present. -/
def propNoDnd : DeviceProp :=
  { dndTimer := Option.none, status := some statFull, cleanSummary := some summFull
    consumable := some consFull, lastCleanRecord := some recFull }

def worldNoDnd : World := { coordData := [("dev", propNoDnd)], sensor := sensor0 }

/-- A device whose last-clean record is present but has every field `None`. -/
def propEmptyRec : DeviceProp := { lastCleanRecord := some { } }

def worldEmptyRec : World := { coordData := [("dev", propEmptyRec)], sensor := sensor0 }

/-- A device whose status reports a current clean duration of zero. -/
def propZeroTime : DeviceProp := { status := some { cleanTime := some 0 } }

def worldZeroTime : World := { coordData := [("dev", propZeroTime)], sensor := sensor0 }

/-- A descriptor with declared attributes, to exercise
`_extract_attributes` (no table entry declares any). -/
def descAttrsTest : RoborockSensorDescription :=
  { key := "clean_time", attributes := ["clean_time", "not_an_attribute"] }

/-! Helper lemmas. -/

lemma except_bind_ok {α β : Type} (a : α) (f : α → Except PyErr β) :
    (Except.ok a >>= f) = f a := rfl

lemma except_bind_error {α β : Type} (e : PyErr) (f : α → Except PyErr β) :
    ((Except.error e : Except PyErr α) >>= f) = Except.error e := rfl

lemma truthy_ofOptDnd {o : Option DndTimer} (h : (ofOptDnd o).truthy = true) :
    ∃ t, o = some t := by
  cases o with
  | none => simp [ofOptDnd, PyVal.truthy] at h
  | some t => exact ⟨t, rfl⟩

lemma truthy_ofOptRecord {o : Option CleanRecord} (h : (ofOptRecord o).truthy = true) :
    ∃ r, o = some r := by
  cases o with
  | none => simp [ofOptRecord, PyVal.truthy] at h
  | some r => exact ⟨r, rfl⟩

lemma truthy_ofOptStatus {o : Option Status} (h : (ofOptStatus o).truthy = true) :
    ∃ s, o = some s := by
  cases o with
  | none => simp [ofOptStatus, PyVal.truthy] at h
  | some s => exact ⟨s, rfl⟩

lemma truthy_ofOptSummary {o : Option CleanSummary} (h : (ofOptSummary o).truthy = true) :
    ∃ s, o = some s := by
  cases o with
  | none => simp [ofOptSummary, PyVal.truthy] at h
  | some s => exact ⟨s, rfl⟩

lemma truthy_ofOptConsumable {o : Option Consumable}
    (h : (ofOptConsumable o).truthy = true) : ∃ c, o = some c := by
  cases o with
  | none => simp [ofOptConsumable, PyVal.truthy] at h
  | some c => exact ⟨c, rfl⟩

lemma numish_ofOptInt (o : Option Int) : numish (ofOptInt o) := by
  cases o with
  | none => exact Or.inl rfl
  | some n => exact Or.inr (Or.inl ⟨n, rfl⟩)

/-- The `TIMESTAMP` conversion step cannot raise on a `None` or numeric
value. -/
lemma timestampStep_ok_numish (desc : RoborockSensorDescription) (v : PyVal)
    (h : numish v) : ∃ w, timestampStep desc v = Except.ok w := by
  rcases h with rfl | ⟨n, rfl⟩ | ⟨q, rfl⟩ <;> unfold timestampStep
  · rw [if_neg (by rintro ⟨-, h2⟩; simp [PyVal.truthy] at h2)]
    exact ⟨_, rfl⟩
  · by_cases hc : desc.device_class = some SensorDeviceClass.timestamp ∧
        (PyVal.int n).truthy = true
    · rw [if_pos hc]; exact ⟨_, rfl⟩
    · rw [if_neg hc]; exact ⟨_, rfl⟩
  · by_cases hc : desc.device_class = some SensorDeviceClass.timestamp ∧
        (PyVal.rat q).truthy = true
    · rw [if_pos hc]; exact ⟨_, rfl⟩
    · rw [if_neg hc]; exact ⟨_, rfl⟩

/-- The `TIMESTAMP` conversion step is the identity for a sensor with no
declared device class. -/
lemma timestampStep_not_ts (desc : RoborockSensorDescription) (v : PyVal)
    (hdc : desc.device_class = Option.none) : timestampStep desc v = Except.ok v := by
  unfold timestampStep
  rw [if_neg (by rintro ⟨h1, -⟩; rw [hdc] at h1; exact Option.noConfusion h1)]
  rfl

/-- The `TIMESTAMP` conversion of a truthy float epoch. -/
lemma timestampStep_rat_ts (desc : RoborockSensorDescription) (q : ℚ)
    (hdc : desc.device_class = some SensorDeviceClass.timestamp) (hq : q ≠ 0) :
    timestampStep desc (PyVal.rat q) = Except.ok (PyVal.datetime q true) := by
  unfold timestampStep
  rw [if_pos ⟨hdc, by simpa [PyVal.truthy] using hq⟩]
  rfl

/-- The transform is skipped on a falsy value. -/
lemma applyTransform_not_truthy (env : Env) (desc : RoborockSensorDescription)
    (v : PyVal) (h : v.truthy = false) : applyTransform env desc v = Except.ok v := by
  unfold applyTransform
  cases hval : desc.value with
  | none => rfl
  | some f =>
    dsimp only
    rw [if_neg (by rw [h]; exact Bool.noConfusion)]
    rfl

/-- The transform is skipped when the descriptor declares none. -/
lemma applyTransform_no_value (env : Env) (desc : RoborockSensorDescription)
    (v : PyVal) (h : desc.value = Option.none) : applyTransform env desc v = Except.ok v := by
  unfold applyTransform
  rw [h]
  rfl

/-- The area transform on a truthy integer. -/
lemma applyTransform_area_int (env : Env) (desc : RoborockSensorDescription) (n : Int)
    (hval : desc.value = some areaValueLambda) (hn : n ≠ 0) :
    applyTransform env desc (PyVal.int n) = Except.ok (PyVal.rat ((n : ℚ) / 1000000)) := by
  unfold applyTransform
  rw [hval]
  dsimp only
  rw [if_pos (by simpa [PyVal.truthy] using hn)]
  rfl

/-- The area transform on a truthy float. -/
lemma applyTransform_area_rat (env : Env) (desc : RoborockSensorDescription) (q : ℚ)
    (hval : desc.value = some areaValueLambda) (hq : q ≠ 0) :
    applyTransform env desc (PyVal.rat q) = Except.ok (PyVal.rat (q / 1000000)) := by
  unfold applyTransform
  rw [hval]
  dsimp only
  rw [if_pos (by simpa [PyVal.truthy] using hq)]
  rfl

/-- The area transform cannot raise on `None` or numbers and yields `None`
or a number. -/
lemma applyTransform_area_numish (env : Env) (desc : RoborockSensorDescription)
    (v : PyVal) (hval : desc.value = some areaValueLambda) (h : numish v) :
    ∃ w, applyTransform env desc v = Except.ok w ∧ numish w := by
  rcases h with rfl | ⟨n, rfl⟩ | ⟨q, rfl⟩
  · exact ⟨_, applyTransform_not_truthy env desc _ rfl, Or.inl rfl⟩
  · by_cases hn : n = 0
    · subst hn
      exact ⟨_, applyTransform_not_truthy env desc _ (by simp [PyVal.truthy]),
        Or.inr (Or.inl ⟨_, rfl⟩)⟩
    · exact ⟨_, applyTransform_area_int env desc n hval hn, Or.inr (Or.inr ⟨_, rfl⟩)⟩
  · by_cases hq : q = 0
    · subst hq
      exact ⟨_, applyTransform_not_truthy env desc _ (by simp [PyVal.truthy]),
        Or.inr (Or.inr ⟨_, rfl⟩)⟩
    · exact ⟨_, applyTransform_area_rat env desc q hval hq, Or.inr (Or.inr ⟨_, rfl⟩)⟩

/-- The DnD transform on a list headed by two in-range integers. -/
lemma applyTransform_dnd (env : Env) (desc : RoborockSensorDescription)
    (h m : Int) (rest : List PyVal) (hval : desc.value = some dndValueLambda)
    (hb : InRangeHM h m) :
    applyTransform env desc (PyVal.list (PyVal.int h :: PyVal.int m :: rest))
      = Except.ok (PyVal.rat ((parse_datetime_time env h m : Int) : ℚ)) := by
  unfold applyTransform
  rw [hval]
  dsimp only [PyVal.truthy]
  simp only [List.isEmpty_cons, Bool.not_false, eq_self_iff_true, if_true]
  simp only [dndValueLambda]
  rw [if_pos (show 0 ≤ h ∧ h < 24 ∧ 0 ≤ m ∧ m < 60 from hb)]

/-- A coordinator update cannot raise when determining the native value
does not. -/
lemma handle_ok_of_dnv (env : Env) (d : String) (desc : RoborockSensorDescription)
    (w : World) (nv : PyVal)
    (h : determineNativeValue env w.coordData d desc = Except.ok nv) :
    ∃ r, handleCoordinatorUpdateW env d desc w = Except.ok r := by
  unfold handleCoordinatorUpdateW
  rw [h, except_bind_ok]
  by_cases ht : nv.truthy = true
  · rw [if_pos ht]; exact ⟨_, rfl⟩
  · rw [if_neg ht]; exact ⟨_, rfl⟩

/-! Closed forms of `_determine_native_value` for each descriptor, given
that the device's status structure and the relevant parent are present. -/

lemma dnv_dndStart_cf (env : Env) (coord : CoordData) (d : String) (p : DeviceProp)
    (t : DndTimer) (Hc : coordGet coord d = PyVal.deviceProp p)
    (hp : p.dndTimer = some t) :
    determineNativeValue env coord d descDndStart
      = applyTransform env descDndStart
          (PyVal.list [ofOptInt t.startHour, ofOptInt t.startMinute]) >>=
        timestampStep descDndStart := by
  unfold determineNativeValue
  rw [Hc, show extractTransformed env (PyVal.deviceProp p) descDndStart
        = getRaw descDndStart (ofOptDnd p.dndTimer) >>=
            applyTransform env descDndStart from rfl, hp]
  rfl

lemma dnv_dndEnd_cf (env : Env) (coord : CoordData) (d : String) (p : DeviceProp)
    (t : DndTimer) (Hc : coordGet coord d = PyVal.deviceProp p)
    (hp : p.dndTimer = some t) :
    determineNativeValue env coord d descDndEnd
      = applyTransform env descDndEnd
          (PyVal.list [ofOptInt t.endHour, ofOptInt t.endMinute]) >>=
        timestampStep descDndEnd := by
  unfold determineNativeValue
  rw [Hc, show extractTransformed env (PyVal.deviceProp p) descDndEnd
        = getRaw descDndEnd (ofOptDnd p.dndTimer) >>=
            applyTransform env descDndEnd from rfl, hp]
  rfl

lemma dnv_lastCleanStart_cf (env : Env) (coord : CoordData) (d : String)
    (p : DeviceProp) (r : CleanRecord) (Hc : coordGet coord d = PyVal.deviceProp p)
    (hp : p.lastCleanRecord = some r) :
    determineNativeValue env coord d descLastCleanStart
      = timestampStep descLastCleanStart (ofOptInt r.begin_) := by
  unfold determineNativeValue
  rw [Hc, show extractTransformed env (PyVal.deviceProp p) descLastCleanStart
        = getRaw descLastCleanStart (ofOptRecord p.lastCleanRecord) >>=
            applyTransform env descLastCleanStart from rfl, hp]
  rfl

lemma dnv_lastCleanEnd_cf (env : Env) (coord : CoordData) (d : String)
    (p : DeviceProp) (r : CleanRecord) (Hc : coordGet coord d = PyVal.deviceProp p)
    (hp : p.lastCleanRecord = some r) :
    determineNativeValue env coord d descLastCleanEnd
      = timestampStep descLastCleanEnd (ofOptInt r.end_) := by
  unfold determineNativeValue
  rw [Hc, show extractTransformed env (PyVal.deviceProp p) descLastCleanEnd
        = getRaw descLastCleanEnd (ofOptRecord p.lastCleanRecord) >>=
            applyTransform env descLastCleanEnd from rfl, hp]
  rfl

lemma dnv_lastCleanDuration_cf (env : Env) (coord : CoordData) (d : String)
    (p : DeviceProp) (r : CleanRecord) (Hc : coordGet coord d = PyVal.deviceProp p)
    (hp : p.lastCleanRecord = some r) :
    determineNativeValue env coord d descLastCleanDuration
      = timestampStep descLastCleanDuration (ofOptInt r.duration) := by
  unfold determineNativeValue
  rw [Hc, show extractTransformed env (PyVal.deviceProp p) descLastCleanDuration
        = getRaw descLastCleanDuration (ofOptRecord p.lastCleanRecord) >>=
            applyTransform env descLastCleanDuration from rfl, hp]
  rfl

lemma dnv_lastCleanArea_cf (env : Env) (coord : CoordData) (d : String)
    (p : DeviceProp) (r : CleanRecord) (Hc : coordGet coord d = PyVal.deviceProp p)
    (hp : p.lastCleanRecord = some r) :
    determineNativeValue env coord d descLastCleanArea
      = applyTransform env descLastCleanArea (ofOptInt r.area) >>=
          timestampStep descLastCleanArea := by
  unfold determineNativeValue
  rw [Hc, show extractTransformed env (PyVal.deviceProp p) descLastCleanArea
        = getRaw descLastCleanArea (ofOptRecord p.lastCleanRecord) >>=
            applyTransform env descLastCleanArea from rfl, hp]
  rfl

lemma dnv_currentCleanDuration_cf (env : Env) (coord : CoordData) (d : String)
    (p : DeviceProp) (s : Status) (Hc : coordGet coord d = PyVal.deviceProp p)
    (hp : p.status = some s) :
    determineNativeValue env coord d descCurrentCleanDuration
      = timestampStep descCurrentCleanDuration (ofOptInt s.cleanTime) := by
  unfold determineNativeValue
  rw [Hc, show extractTransformed env (PyVal.deviceProp p) descCurrentCleanDuration
        = getRaw descCurrentCleanDuration (ofOptStatus p.status) >>=
            applyTransform env descCurrentCleanDuration from rfl, hp]
  rfl

lemma dnv_currentCleanArea_cf (env : Env) (coord : CoordData) (d : String)
    (p : DeviceProp) (s : Status) (Hc : coordGet coord d = PyVal.deviceProp p)
    (hp : p.status = some s) :
    determineNativeValue env coord d descCurrentCleanArea
      = applyTransform env descCurrentCleanArea (ofOptInt s.cleanArea) >>=
          timestampStep descCurrentCleanArea := by
  unfold determineNativeValue
  rw [Hc, show extractTransformed env (PyVal.deviceProp p) descCurrentCleanArea
        = getRaw descCurrentCleanArea (ofOptStatus p.status) >>=
            applyTransform env descCurrentCleanArea from rfl, hp]
  rfl

lemma dnv_totalDuration_cf (env : Env) (coord : CoordData) (d : String)
    (p : DeviceProp) (s : CleanSummary) (Hc : coordGet coord d = PyVal.deviceProp p)
    (hp : p.cleanSummary = some s) :
    determineNativeValue env coord d descTotalDuration
      = timestampStep descTotalDuration (ofOptInt s.cleanTime) := by
  unfold determineNativeValue
  rw [Hc, show extractTransformed env (PyVal.deviceProp p) descTotalDuration
        = getRaw descTotalDuration (ofOptSummary p.cleanSummary) >>=
            applyTransform env descTotalDuration from rfl, hp]
  rfl

lemma dnv_totalCleanArea_cf (env : Env) (coord : CoordData) (d : String)
    (p : DeviceProp) (s : CleanSummary) (Hc : coordGet coord d = PyVal.deviceProp p)
    (hp : p.cleanSummary = some s) :
    determineNativeValue env coord d descTotalCleanArea
      = applyTransform env descTotalCleanArea (ofOptInt s.cleanArea) >>=
          timestampStep descTotalCleanArea := by
  unfold determineNativeValue
  rw [Hc, show extractTransformed env (PyVal.deviceProp p) descTotalCleanArea
        = getRaw descTotalCleanArea (ofOptSummary p.cleanSummary) >>=
            applyTransform env descTotalCleanArea from rfl, hp]
  rfl

lemma dnv_totalCleanCount_cf (env : Env) (coord : CoordData) (d : String)
    (p : DeviceProp) (s : CleanSummary) (Hc : coordGet coord d = PyVal.deviceProp p)
    (hp : p.cleanSummary = some s) :
    determineNativeValue env coord d descTotalCleanCount
      = timestampStep descTotalCleanCount (ofOptInt s.cleanCount) := by
  unfold determineNativeValue
  rw [Hc, show extractTransformed env (PyVal.deviceProp p) descTotalCleanCount
        = getRaw descTotalCleanCount (ofOptSummary p.cleanSummary) >>=
            applyTransform env descTotalCleanCount from rfl, hp]
  rfl

lemma dnv_totalDustCollectionCount_cf (env : Env) (coord : CoordData) (d : String)
    (p : DeviceProp) (s : CleanSummary) (Hc : coordGet coord d = PyVal.deviceProp p)
    (hp : p.cleanSummary = some s) :
    determineNativeValue env coord d descTotalDustCollectionCount
      = timestampStep descTotalDustCollectionCount (ofOptInt s.cleanCount) := by
  unfold determineNativeValue
  rw [Hc, show extractTransformed env (PyVal.deviceProp p) descTotalDustCollectionCount
        = getRaw descTotalDustCollectionCount (ofOptSummary p.cleanSummary) >>=
            applyTransform env descTotalDustCollectionCount from rfl, hp]
  rfl

lemma dnv_mainBrushLeft_cf (env : Env) (coord : CoordData) (d : String)
    (p : DeviceProp) (c : Consumable) (Hc : coordGet coord d = PyVal.deviceProp p)
    (hp : p.consumable = some c) :
    determineNativeValue env coord d descMainBrushLeft
      = timestampStep descMainBrushLeft (ofOptInt c.mainBrushWorkTime) := by
  unfold determineNativeValue
  rw [Hc, show extractTransformed env (PyVal.deviceProp p) descMainBrushLeft
        = getRaw descMainBrushLeft (ofOptConsumable p.consumable) >>=
            applyTransform env descMainBrushLeft from rfl, hp]
  rfl

lemma dnv_sideBrushLeft_cf (env : Env) (coord : CoordData) (d : String)
    (p : DeviceProp) (c : Consumable) (Hc : coordGet coord d = PyVal.deviceProp p)
    (hp : p.consumable = some c) :
    determineNativeValue env coord d descSideBrushLeft
      = timestampStep descSideBrushLeft (ofOptInt c.sideBrushWorkTime) := by
  unfold determineNativeValue
  rw [Hc, show extractTransformed env (PyVal.deviceProp p) descSideBrushLeft
        = getRaw descSideBrushLeft (ofOptConsumable p.consumable) >>=
            applyTransform env descSideBrushLeft from rfl, hp]
  rfl

lemma dnv_filterLeft_cf (env : Env) (coord : CoordData) (d : String)
    (p : DeviceProp) (c : Consumable) (Hc : coordGet coord d = PyVal.deviceProp p)
    (hp : p.consumable = some c) :
    determineNativeValue env coord d descFilterLeft
      = timestampStep descFilterLeft (ofOptInt c.filterWorkTime) := by
  unfold determineNativeValue
  rw [Hc, show extractTransformed env (PyVal.deviceProp p) descFilterLeft
        = getRaw descFilterLeft (ofOptConsumable p.consumable) >>=
            applyTransform env descFilterLeft from rfl, hp]
  rfl

lemma dnv_sensorDirtyLeft_cf (env : Env) (coord : CoordData) (d : String)
    (p : DeviceProp) (c : Consumable) (Hc : coordGet coord d = PyVal.deviceProp p)
    (hp : p.consumable = some c) :
    determineNativeValue env coord d descSensorDirtyLeft
      = timestampStep descSensorDirtyLeft (ofOptInt c.sensorDirtyTime) := by
  unfold determineNativeValue
  rw [Hc, show extractTransformed env (PyVal.deviceProp p) descSensorDirtyLeft
        = getRaw descSensorDirtyLeft (ofOptConsumable p.consumable) >>=
            applyTransform env descSensorDirtyLeft from rfl, hp]
  rfl

/-! Claim theorems. -/

/-- Claim C1: for every sensor and every coordinator update notification,
if the newly determined native value is `None`, `_handle_coordinator_update`
leaves the previously published state unchanged — neither the native value
nor the extra state attributes are modified and no state write is
performed. -/
theorem claim_C1 (env : Env) (d : String) (desc : RoborockSensorDescription)
    (w : World) (h : determineNativeValue env w.coordData d desc = Except.ok PyVal.none) :
    handleCoordinatorUpdateW env d desc w = Except.ok (w, false) := by
  unfold handleCoordinatorUpdateW
  rw [h, except_bind_ok]
  rfl

/-- Witness for C1: a device whose last-clean record is present but whose
`duration` field is `None`; the update keeps the old state and writes
nothing. -/
theorem claim_C1_witness :
    handleCoordinatorUpdateW env0 "dev" descLastCleanDuration worldEmptyRec
      = Except.ok (worldEmptyRec, false) :=
  claim_C1 env0 "dev" descLastCleanDuration worldEmptyRec rfl

/-- Counterexample to claim C2 as stated: with the whole per-device status
absent from the coordinator data (`coordinator.data.get` returns `None`),
`async_setup_entry` does not skip the device — the `getattr` on `None`
raises `AttributeError`. -/
theorem claim_C2_counterexample :
    asyncSetupEntry env0 ["dev1"] [] = Except.error PyErr.attributeError := rfl

/-- Claim C2 (amended): at setup time, when the parent lookup on the
device's status structure succeeds and yields a falsy (absent/`None`)
value, the loop body omits the entity — it adds nothing and raises no
exception.  (When the whole per-device status is absent the lookup itself
raises `AttributeError`, per the counterexample.) -/
theorem claim_C2_amended (env : Env) (coord : CoordData) (d uid : String)
    (acc : List Entity) (sname : String) (desc : RoborockSensorDescription) (v : PyVal)
    (hv : pygetattr (coordGet coord d) (desc.parent_key.getD "") = Except.ok v)
    (ht : v.truthy = false) :
    setupStep env coord d uid acc sname desc = Except.ok acc := by
  unfold setupStep
  rw [hv, except_bind_ok, if_neg (by rw [ht]; exact Bool.noConfusion)]
  rfl

/-- Witness for the amended C2: a device whose snapshot has `dnd_timer`
set to `None`; the DnD-start entity is omitted without error. -/
theorem claim_C2_amended_witness :
    setupStep env0 [("dev", propNoDnd)] "dev" "dev" [] "dnd_start" descDndStart
      = Except.ok [] :=
  claim_C2_amended env0 [("dev", propNoDnd)] "dev" "dev" [] "dnd_start" descDndStart
    PyVal.none rfl rfl

/-- Counterexample to claim C3 as stated: when the descriptor's nested
parent field (`dnd_timer`) has become `None` after setup, the update path
raises `AttributeError` instead of skipping. -/
theorem claim_C3_counterexample :
    handleCoordinatorUpdateW env0 "dev" descDndStart worldNoDnd
      = Except.error PyErr.attributeError := rfl

/-- Claim C3 (amended): for every sensor of the table, the update path
raises no exception provided the device's status structure is present and
the descriptor's nested parent data is present (truthy) — with, for the
two DnD descriptors, present in-range integer hour/minute fields; a
requested leaf field that is absent or `None` is then silently skipped or
leaves the value stale. -/
theorem claim_C3_amended :
    ∀ sname desc, (sname, desc) ∈ VACUUM_SENSORS →
    ∀ env d w p, coordGet w.coordData d = PyVal.deviceProp p →
    updateSafe p desc →
    ∃ r, handleCoordinatorUpdateW env d desc w = Except.ok r := by
  intro sname desc hmem env d w p Hc hsafe
  obtain ⟨⟨v, hv, htr⟩, hkeys⟩ := hsafe
  fin_cases hmem
  · obtain ⟨t, ht, hwf⟩ := hkeys rfl
    obtain ⟨sh, sm, eh, em, h1, h2, h3, h4, hb1, hb2⟩ := hwf
    obtain ⟨nv, hnv⟩ := timestampStep_ok_numish descDndStart
      (PyVal.rat ((parse_datetime_time env sh sm : Int) : ℚ)) (Or.inr (Or.inr ⟨_, rfl⟩))
    refine handle_ok_of_dnv env d descDndStart w nv ?_
    rw [dnv_dndStart_cf env w.coordData d p t Hc ht, h1, h2,
      show ofOptInt (some sh) = PyVal.int sh from rfl,
      show ofOptInt (some sm) = PyVal.int sm from rfl,
      applyTransform_dnd env descDndStart sh sm [] rfl hb1, except_bind_ok, hnv]
  · obtain ⟨t, ht, hwf⟩ := hkeys rfl
    obtain ⟨sh, sm, eh, em, h1, h2, h3, h4, hb1, hb2⟩ := hwf
    obtain ⟨nv, hnv⟩ := timestampStep_ok_numish descDndEnd
      (PyVal.rat ((parse_datetime_time env eh em : Int) : ℚ)) (Or.inr (Or.inr ⟨_, rfl⟩))
    refine handle_ok_of_dnv env d descDndEnd w nv ?_
    rw [dnv_dndEnd_cf env w.coordData d p t Hc ht, h3, h4,
      show ofOptInt (some eh) = PyVal.int eh from rfl,
      show ofOptInt (some em) = PyVal.int em from rfl,
      applyTransform_dnd env descDndEnd eh em [] rfl hb2, except_bind_ok, hnv]
  · rw [show pygetattr (PyVal.deviceProp p) (descLastCleanStart.parent_key.getD "")
        = Except.ok (ofOptRecord p.lastCleanRecord) from rfl] at hv
    injection hv with hv
    subst hv
    obtain ⟨r, hr⟩ := truthy_ofOptRecord htr
    obtain ⟨nv, hnv⟩ := timestampStep_ok_numish descLastCleanStart (ofOptInt r.begin_)
      (numish_ofOptInt _)
    exact handle_ok_of_dnv env d descLastCleanStart w nv
      ((dnv_lastCleanStart_cf env w.coordData d p r Hc hr).trans hnv)
  · rw [show pygetattr (PyVal.deviceProp p) (descLastCleanEnd.parent_key.getD "")
        = Except.ok (ofOptRecord p.lastCleanRecord) from rfl] at hv
    injection hv with hv
    subst hv
    obtain ⟨r, hr⟩ := truthy_ofOptRecord htr
    obtain ⟨nv, hnv⟩ := timestampStep_ok_numish descLastCleanEnd (ofOptInt r.end_)
      (numish_ofOptInt _)
    exact handle_ok_of_dnv env d descLastCleanEnd w nv
      ((dnv_lastCleanEnd_cf env w.coordData d p r Hc hr).trans hnv)
  · rw [show pygetattr (PyVal.deviceProp p) (descLastCleanDuration.parent_key.getD "")
        = Except.ok (ofOptRecord p.lastCleanRecord) from rfl] at hv
    injection hv with hv
    subst hv
    obtain ⟨r, hr⟩ := truthy_ofOptRecord htr
    obtain ⟨nv, hnv⟩ := timestampStep_ok_numish descLastCleanDuration
      (ofOptInt r.duration) (numish_ofOptInt _)
    exact handle_ok_of_dnv env d descLastCleanDuration w nv
      ((dnv_lastCleanDuration_cf env w.coordData d p r Hc hr).trans hnv)
  · rw [show pygetattr (PyVal.deviceProp p) (descLastCleanArea.parent_key.getD "")
        = Except.ok (ofOptRecord p.lastCleanRecord) from rfl] at hv
    injection hv with hv
    subst hv
    obtain ⟨r, hr⟩ := truthy_ofOptRecord htr
    obtain ⟨w1, hw1, hnum⟩ := applyTransform_area_numish env descLastCleanArea
      (ofOptInt r.area) rfl (numish_ofOptInt _)
    obtain ⟨nv, hnv⟩ := timestampStep_ok_numish descLastCleanArea w1 hnum
    refine handle_ok_of_dnv env d descLastCleanArea w nv ?_
    rw [dnv_lastCleanArea_cf env w.coordData d p r Hc hr, hw1, except_bind_ok, hnv]
  · rw [show pygetattr (PyVal.deviceProp p) (descCurrentCleanDuration.parent_key.getD "")
        = Except.ok (ofOptStatus p.status) from rfl] at hv
    injection hv with hv
    subst hv
    obtain ⟨s, hs⟩ := truthy_ofOptStatus htr
    obtain ⟨nv, hnv⟩ := timestampStep_ok_numish descCurrentCleanDuration
      (ofOptInt s.cleanTime) (numish_ofOptInt _)
    exact handle_ok_of_dnv env d descCurrentCleanDuration w nv
      ((dnv_currentCleanDuration_cf env w.coordData d p s Hc hs).trans hnv)
  · rw [show pygetattr (PyVal.deviceProp p) (descCurrentCleanArea.parent_key.getD "")
        = Except.ok (ofOptStatus p.status) from rfl] at hv
    injection hv with hv
    subst hv
    obtain ⟨s, hs⟩ := truthy_ofOptStatus htr
    obtain ⟨w1, hw1, hnum⟩ := applyTransform_area_numish env descCurrentCleanArea
      (ofOptInt s.cleanArea) rfl (numish_ofOptInt _)
    obtain ⟨nv, hnv⟩ := timestampStep_ok_numish descCurrentCleanArea w1 hnum
    refine handle_ok_of_dnv env d descCurrentCleanArea w nv ?_
    rw [dnv_currentCleanArea_cf env w.coordData d p s Hc hs, hw1, except_bind_ok, hnv]
  · rw [show pygetattr (PyVal.deviceProp p) (descTotalDuration.parent_key.getD "")
        = Except.ok (ofOptSummary p.cleanSummary) from rfl] at hv
    injection hv with hv
    subst hv
    obtain ⟨s, hs⟩ := truthy_ofOptSummary htr
    obtain ⟨nv, hnv⟩ := timestampStep_ok_numish descTotalDuration (ofOptInt s.cleanTime)
      (numish_ofOptInt _)
    exact handle_ok_of_dnv env d descTotalDuration w nv
      ((dnv_totalDuration_cf env w.coordData d p s Hc hs).trans hnv)
  · rw [show pygetattr (PyVal.deviceProp p) (descTotalCleanArea.parent_key.getD "")
        = Except.ok (ofOptSummary p.cleanSummary) from rfl] at hv
    injection hv with hv
    subst hv
    obtain ⟨s, hs⟩ := truthy_ofOptSummary htr
    obtain ⟨w1, hw1, hnum⟩ := applyTransform_area_numish env descTotalCleanArea
      (ofOptInt s.cleanArea) rfl (numish_ofOptInt _)
    obtain ⟨nv, hnv⟩ := timestampStep_ok_numish descTotalCleanArea w1 hnum
    refine handle_ok_of_dnv env d descTotalCleanArea w nv ?_
    rw [dnv_totalCleanArea_cf env w.coordData d p s Hc hs, hw1, except_bind_ok, hnv]
  · rw [show pygetattr (PyVal.deviceProp p) (descTotalCleanCount.parent_key.getD "")
        = Except.ok (ofOptSummary p.cleanSummary) from rfl] at hv
    injection hv with hv
    subst hv
    obtain ⟨s, hs⟩ := truthy_ofOptSummary htr
    obtain ⟨nv, hnv⟩ := timestampStep_ok_numish descTotalCleanCount
      (ofOptInt s.cleanCount) (numish_ofOptInt _)
    exact handle_ok_of_dnv env d descTotalCleanCount w nv
      ((dnv_totalCleanCount_cf env w.coordData d p s Hc hs).trans hnv)
  · rw [show pygetattr (PyVal.deviceProp p)
          (descTotalDustCollectionCount.parent_key.getD "")
        = Except.ok (ofOptSummary p.cleanSummary) from rfl] at hv
    injection hv with hv
    subst hv
    obtain ⟨s, hs⟩ := truthy_ofOptSummary htr
    obtain ⟨nv, hnv⟩ := timestampStep_ok_numish descTotalDustCollectionCount
      (ofOptInt s.cleanCount) (numish_ofOptInt _)
    exact handle_ok_of_dnv env d descTotalDustCollectionCount w nv
      ((dnv_totalDustCollectionCount_cf env w.coordData d p s Hc hs).trans hnv)
  · rw [show pygetattr (PyVal.deviceProp p) (descMainBrushLeft.parent_key.getD "")
        = Except.ok (ofOptConsumable p.consumable) from rfl] at hv
    injection hv with hv
    subst hv
    obtain ⟨c, hc⟩ := truthy_ofOptConsumable htr
    obtain ⟨nv, hnv⟩ := timestampStep_ok_numish descMainBrushLeft
      (ofOptInt c.mainBrushWorkTime) (numish_ofOptInt _)
    exact handle_ok_of_dnv env d descMainBrushLeft w nv
      ((dnv_mainBrushLeft_cf env w.coordData d p c Hc hc).trans hnv)
  · rw [show pygetattr (PyVal.deviceProp p) (descSideBrushLeft.parent_key.getD "")
        = Except.ok (ofOptConsumable p.consumable) from rfl] at hv
    injection hv with hv
    subst hv
    obtain ⟨c, hc⟩ := truthy_ofOptConsumable htr
    obtain ⟨nv, hnv⟩ := timestampStep_ok_numish descSideBrushLeft
      (ofOptInt c.sideBrushWorkTime) (numish_ofOptInt _)
    exact handle_ok_of_dnv env d descSideBrushLeft w nv
      ((dnv_sideBrushLeft_cf env w.coordData d p c Hc hc).trans hnv)
  · rw [show pygetattr (PyVal.deviceProp p) (descFilterLeft.parent_key.getD "")
        = Except.ok (ofOptConsumable p.consumable) from rfl] at hv
    injection hv with hv
    subst hv
    obtain ⟨c, hc⟩ := truthy_ofOptConsumable htr
    obtain ⟨nv, hnv⟩ := timestampStep_ok_numish descFilterLeft
      (ofOptInt c.filterWorkTime) (numish_ofOptInt _)
    exact handle_ok_of_dnv env d descFilterLeft w nv
      ((dnv_filterLeft_cf env w.coordData d p c Hc hc).trans hnv)
  · rw [show pygetattr (PyVal.deviceProp p) (descSensorDirtyLeft.parent_key.getD "")
        = Except.ok (ofOptConsumable p.consumable) from rfl] at hv
    injection hv with hv
    subst hv
    obtain ⟨c, hc⟩ := truthy_ofOptConsumable htr
    obtain ⟨nv, hnv⟩ := timestampStep_ok_numish descSensorDirtyLeft
      (ofOptInt c.sensorDirtyTime) (numish_ofOptInt _)
    exact handle_ok_of_dnv env d descSensorDirtyLeft w nv
      ((dnv_sensorDirtyLeft_cf env w.coordData d p c Hc hc).trans hnv)

/-- Witness for the amended C3: a fully populated device updates the
DnD-start sensor without raising. -/
theorem claim_C3_amended_witness :
    ∃ r, handleCoordinatorUpdateW env0 "dev" descDndStart worldFull = Except.ok r :=
  claim_C3_amended "dnd_start" descDndStart
    (by unfold VACUUM_SENSORS; exact List.mem_cons_self _ _)
    env0 "dev" worldFull propFull rfl
    ⟨⟨PyVal.dnd dndFull, rfl, rfl⟩,
      fun _ => ⟨dndFull, rfl, 22, 30, 8, 0, rfl, rfl, rfl, rfl,
        ⟨by norm_num, by norm_num, by norm_num, by norm_num⟩,
        ⟨by norm_num, by norm_num, by norm_num, by norm_num⟩⟩⟩

/-- The combined DnD timestamp never lies in the past: it is the next
occurrence of the given wall-clock time. -/
lemma parse_datetime_time_ge_now (env : Env) (h m : Int) (hb : InRangeHM h m) :
    env.now ≤ parse_datetime_time env h m := by
  obtain ⟨hb1, hb2, hb3, hb4⟩ := hb
  unfold parse_datetime_time
  dsimp only
  split <;> omega

/-- Claim C4: each of the three area descriptors (last clean area, current
clean area, total clean area) yields the raw integer area divided by
1,000,000 (as a number; a raw area of `0` is returned untransformed as the
integer `0`, which is the same number). -/
theorem claim_C4 :
    (∀ env coord d p r n, coordGet coord d = PyVal.deviceProp p →
       p.lastCleanRecord = some r → r.area = some n →
       ∃ v, determineNativeValue env coord d descLastCleanArea = Except.ok v ∧
         v.toNum = some ((n : ℚ) / 1000000))
    ∧ (∀ env coord d p s n, coordGet coord d = PyVal.deviceProp p →
       p.status = some s → s.cleanArea = some n →
       ∃ v, determineNativeValue env coord d descCurrentCleanArea = Except.ok v ∧
         v.toNum = some ((n : ℚ) / 1000000))
    ∧ (∀ env coord d p s n, coordGet coord d = PyVal.deviceProp p →
       p.cleanSummary = some s → s.cleanArea = some n →
       ∃ v, determineNativeValue env coord d descTotalCleanArea = Except.ok v ∧
         v.toNum = some ((n : ℚ) / 1000000)) := by
  refine ⟨?_, ?_, ?_⟩
  · intro env coord d p r n Hc hp hn
    rw [dnv_lastCleanArea_cf env coord d p r Hc hp, hn,
      show ofOptInt (some n) = PyVal.int n from rfl]
    by_cases h0 : n = 0
    · subst h0
      rw [applyTransform_not_truthy env descLastCleanArea (PyVal.int 0) rfl,
        except_bind_ok, timestampStep_not_ts descLastCleanArea _ rfl]
      exact ⟨_, rfl, by norm_num [PyVal.toNum]⟩
    · rw [applyTransform_area_int env descLastCleanArea n rfl h0, except_bind_ok,
        timestampStep_not_ts descLastCleanArea _ rfl]
      exact ⟨_, rfl, rfl⟩
  · intro env coord d p s n Hc hp hn
    rw [dnv_currentCleanArea_cf env coord d p s Hc hp, hn,
      show ofOptInt (some n) = PyVal.int n from rfl]
    by_cases h0 : n = 0
    · subst h0
      rw [applyTransform_not_truthy env descCurrentCleanArea (PyVal.int 0) rfl,
        except_bind_ok, timestampStep_not_ts descCurrentCleanArea _ rfl]
      exact ⟨_, rfl, by norm_num [PyVal.toNum]⟩
    · rw [applyTransform_area_int env descCurrentCleanArea n rfl h0, except_bind_ok,
        timestampStep_not_ts descCurrentCleanArea _ rfl]
      exact ⟨_, rfl, rfl⟩
  · intro env coord d p s n Hc hp hn
    rw [dnv_totalCleanArea_cf env coord d p s Hc hp, hn,
      show ofOptInt (some n) = PyVal.int n from rfl]
    by_cases h0 : n = 0
    · subst h0
      rw [applyTransform_not_truthy env descTotalCleanArea (PyVal.int 0) rfl,
        except_bind_ok, timestampStep_not_ts descTotalCleanArea _ rfl]
      exact ⟨_, rfl, by norm_num [PyVal.toNum]⟩
    · rw [applyTransform_area_int env descTotalCleanArea n rfl h0, except_bind_ok,
        timestampStep_not_ts descTotalCleanArea _ rfl]
      exact ⟨_, rfl, rfl⟩

/-- Witness for C4: a raw last-clean area of 2,500,000 yields 2.5 square
meters. -/
theorem claim_C4_witness :
    (∃ v, determineNativeValue env0 coordFull "dev" descLastCleanArea = Except.ok v ∧
       v.toNum = some (((2500000 : Int) : ℚ) / 1000000))
    ∧ ((2500000 : Int) : ℚ) / 1000000 = 5 / 2 :=
  ⟨claim_C4.1 env0 coordFull "dev" propFull recFull 2500000 rfl rfl rfl, by norm_num⟩

/-- Claim C5: each DnD descriptor reads the hour and minute fields of the
DND-timer parent, combines them via `parse_datetime_time`, and publishes
the result as an absolute (aware-UTC) timestamp; for the pair (22, 30) the
combined epoch is a future instant whose local wall-clock time is 22:30. -/
theorem claim_C5 :
    (∀ env coord d p t sh sm, 0 < env.now →
       coordGet coord d = PyVal.deviceProp p → p.dndTimer = some t →
       t.startHour = some sh → t.startMinute = some sm → InRangeHM sh sm →
       determineNativeValue env coord d descDndStart
         = Except.ok (PyVal.datetime ((parse_datetime_time env sh sm : Int) : ℚ) true))
    ∧ (∀ env coord d p t eh em, 0 < env.now →
       coordGet coord d = PyVal.deviceProp p → p.dndTimer = some t →
       t.endHour = some eh → t.endMinute = some em → InRangeHM eh em →
       determineNativeValue env coord d descDndEnd
         = Except.ok (PyVal.datetime ((parse_datetime_time env eh em : Int) : ℚ) true))
    ∧ (∀ env : Env, env.now ≤ parse_datetime_time env 22 30 ∧
       (parse_datetime_time env 22 30 + env.tzOffset) % 86400 = 22 * 3600 + 30 * 60) := by
  refine ⟨?_, ?_, ?_⟩
  · intro env coord d p t sh sm hnow Hc hp h1 h2 hb
    have hge := parse_datetime_time_ge_now env sh sm hb
    have hne : ((parse_datetime_time env sh sm : Int) : ℚ) ≠ 0 := by
      have h3 : parse_datetime_time env sh sm ≠ 0 := by omega
      exact_mod_cast h3
    rw [dnv_dndStart_cf env coord d p t Hc hp, h1, h2,
      show ofOptInt (some sh) = PyVal.int sh from rfl,
      show ofOptInt (some sm) = PyVal.int sm from rfl,
      applyTransform_dnd env descDndStart sh sm [] rfl hb, except_bind_ok,
      timestampStep_rat_ts descDndStart _ rfl hne]
  · intro env coord d p t eh em hnow Hc hp h1 h2 hb
    have hge := parse_datetime_time_ge_now env eh em hb
    have hne : ((parse_datetime_time env eh em : Int) : ℚ) ≠ 0 := by
      have h3 : parse_datetime_time env eh em ≠ 0 := by omega
      exact_mod_cast h3
    rw [dnv_dndEnd_cf env coord d p t Hc hp, h1, h2,
      show ofOptInt (some eh) = PyVal.int eh from rfl,
      show ofOptInt (some em) = PyVal.int em from rfl,
      applyTransform_dnd env descDndEnd eh em [] rfl hb, except_bind_ok,
      timestampStep_rat_ts descDndEnd _ rfl hne]
  · intro env
    refine ⟨parse_datetime_time_ge_now env 22 30
      ⟨by norm_num, by norm_num, by norm_num, by norm_num⟩, ?_⟩
    unfold parse_datetime_time
    dsimp only
    split <;> omega

/-- Witness for C5: the fixture's DND timer starts at (22, 30) and the
DnD-start sensor publishes the combined future timestamp. -/
theorem claim_C5_witness :
    determineNativeValue env0 coordFull "dev" descDndStart
        = Except.ok (PyVal.datetime ((parse_datetime_time env0 22 30 : Int) : ℚ) true)
      ∧ env0.now ≤ parse_datetime_time env0 22 30
      ∧ (parse_datetime_time env0 22 30 + env0.tzOffset) % 86400
          = 22 * 3600 + 30 * 60 :=
  ⟨claim_C5.1 env0 coordFull "dev" propFull dndFull 22 30 (by norm_num [env0])
      rfl rfl rfl rfl ⟨by norm_num, by norm_num, by norm_num, by norm_num⟩,
    (claim_C5.2.2 env0).1, (claim_C5.2.2 env0).2⟩

/-- Claim C6: for every sensor whose declared device class is `TIMESTAMP`,
whenever the extracted-and-transformed value is a present (truthy) epoch
number, `_determine_native_value` returns that epoch converted to a
timezone-aware UTC `datetime`; the conversion is applied after the
optional transform (its input is the post-transform value). -/
theorem claim_C6 (env : Env) (coord : CoordData) (d : String)
    (desc : RoborockSensorDescription) (v : PyVal) (q : ℚ)
    (hdc : desc.device_class = some SensorDeviceClass.timestamp)
    (hext : extractTransformed env (coordGet coord d) desc = Except.ok v)
    (hnum : v.toNum = some q) (htr : v.truthy = true) :
    determineNativeValue env coord d desc = Except.ok (PyVal.datetime q true) := by
  unfold determineNativeValue
  rw [hext, except_bind_ok]
  cases v with
  | int n =>
    simp only [PyVal.toNum, Option.some.injEq] at hnum
    subst hnum
    unfold timestampStep
    rw [if_pos ⟨hdc, htr⟩]
    rfl
  | rat q2 =>
    simp only [PyVal.toNum, Option.some.injEq] at hnum
    subst hnum
    unfold timestampStep
    rw [if_pos ⟨hdc, htr⟩]
    rfl
  | none => simp [PyVal.toNum] at hnum
  | list vs => simp [PyVal.toNum] at hnum
  | datetime e a => simp [PyVal.toNum] at hnum
  | dnd t => simp [PyVal.toNum] at hnum
  | record r => simp [PyVal.toNum] at hnum
  | status s => simp [PyVal.toNum] at hnum
  | summary s => simp [PyVal.toNum] at hnum
  | consumable c => simp [PyVal.toNum] at hnum
  | deviceProp p => simp [PyVal.toNum] at hnum

/-- Witness for C6: the last-clean-start sensor converts the raw epoch
1,700,000,000 to an aware-UTC datetime of that instant. -/
theorem claim_C6_witness :
    determineNativeValue env0 coordFull "dev" descLastCleanStart
      = Except.ok (PyVal.datetime ((1700000000 : Int) : ℚ) true) :=
  claim_C6 env0 coordFull "dev" descLastCleanStart (PyVal.int 1700000000)
    ((1700000000 : Int) : ℚ) rfl rfl rfl rfl

/-- Claim C7: a coordinator update never changes the coordinator's device
status structure — the module only reads it — and the only state the
sensor holds is its published native value and extra attributes: on a
skipped update they are untouched, and on a written update both are
recomputed from the coordinator's current data. -/
theorem claim_C7 (env : Env) (d : String) (desc : RoborockSensorDescription)
    (w w' : World) (b : Bool)
    (h : handleCoordinatorUpdateW env d desc w = Except.ok (w', b)) :
    w'.coordData = w.coordData
    ∧ (b = false → w'.sensor = w.sensor)
    ∧ (b = true →
        determineNativeValue env w.coordData d desc
            = Except.ok w'.sensor.attr_native_value
        ∧ w'.sensor.attr_extra_state_attributes
            = extractAttributes desc (coordGet w.coordData d)) := by
  unfold handleCoordinatorUpdateW at h
  cases hdnv : determineNativeValue env w.coordData d desc with
  | error e =>
    rw [hdnv, except_bind_error] at h
    exact Except.noConfusion h
  | ok nv =>
    rw [hdnv, except_bind_ok] at h
    by_cases ht : nv.truthy = true
    · rw [if_pos ht] at h
      injection h with h1
      injection h1 with ha hb
      subst ha
      subst hb
      exact ⟨rfl, fun hb2 => Bool.noConfusion hb2, fun _ => ⟨rfl, rfl⟩⟩
    · rw [if_neg ht] at h
      injection h with h1
      injection h1 with ha hb
      subst ha
      subst hb
      exact ⟨rfl, fun _ => rfl, fun hb2 => Bool.noConfusion hb2⟩

/-- Witness for C7: updating the total-clean-count sensor on the full
fixture leaves the coordinator data untouched and recomputes the sensor
state from it. -/
theorem claim_C7_witness :
    worldFullAfter.coordData = worldFull.coordData
    ∧ (true = false → worldFullAfter.sensor = worldFull.sensor)
    ∧ (true = true →
        determineNativeValue env0 worldFull.coordData "dev" descTotalCleanCount
            = Except.ok worldFullAfter.sensor.attr_native_value
        ∧ worldFullAfter.sensor.attr_extra_state_attributes
            = extractAttributes descTotalCleanCount (coordGet worldFull.coordData "dev")) :=
  claim_C7 env0 "dev" descTotalCleanCount worldFull worldFullAfter true rfl

/-- Claim C8: on any snapshot whose clean-summary parent is present, the
"Total clean count" and "Total dust collection count" sensors publish the
same native value — both descriptors extract `CleanSummaryField.CLEAN_COUNT`
with no transform. -/
theorem claim_C8 (env : Env) (coord : CoordData) (d : String) (p : DeviceProp)
    (s : CleanSummary) (Hc : coordGet coord d = PyVal.deviceProp p)
    (hp : p.cleanSummary = some s) :
    determineNativeValue env coord d descTotalCleanCount
        = Except.ok (ofOptInt s.cleanCount)
    ∧ determineNativeValue env coord d descTotalDustCollectionCount
        = Except.ok (ofOptInt s.cleanCount) := by
  constructor
  · rw [dnv_totalCleanCount_cf env coord d p s Hc hp,
      timestampStep_not_ts descTotalCleanCount _ rfl]
  · rw [dnv_totalDustCollectionCount_cf env coord d p s Hc hp,
      timestampStep_not_ts descTotalDustCollectionCount _ rfl]

/-- Witness for C8: on the full fixture (42 cleans, 7 dust collections)
both count sensors publish 42. -/
theorem claim_C8_witness :
    determineNativeValue env0 coordFull "dev" descTotalCleanCount
        = Except.ok (PyVal.int 42)
    ∧ determineNativeValue env0 coordFull "dev" descTotalDustCollectionCount
        = Except.ok (PyVal.int 42) :=
  ⟨(claim_C8 env0 coordFull "dev" propFull summFull rfl rfl).1,
    (claim_C8 env0 coordFull "dev" propFull summFull rfl rfl).2⟩

/-- Claim C9: a present raw value of `0` is treated exactly like an absent
one — the optional transform is not applied to it, and an update that
determines `0` keeps the previously published state and performs no state
write (the emptiness checks use truthiness, not an is-`None` test). -/
theorem claim_C9 :
    (∀ env desc, applyTransform env desc (PyVal.int 0) = Except.ok (PyVal.int 0))
    ∧ (∀ env d desc w,
        determineNativeValue env w.coordData d desc = Except.ok (PyVal.int 0) →
        handleCoordinatorUpdateW env d desc w = Except.ok (w, false)) := by
  constructor
  · intro env desc
    exact applyTransform_not_truthy env desc _ rfl
  · intro env d desc w h
    unfold handleCoordinatorUpdateW
    rw [h, except_bind_ok]
    rfl

/-- Witness for C9: a current clean duration of `0` is skipped (the area
transform also leaves a raw `0` untouched). -/
theorem claim_C9_witness :
    applyTransform env0 descLastCleanArea (PyVal.int 0) = Except.ok (PyVal.int 0)
    ∧ handleCoordinatorUpdateW env0 "dev" descCurrentCleanDuration worldZeroTime
        = Except.ok (worldZeroTime, false) :=
  ⟨claim_C9.1 env0 descLastCleanArea,
    claim_C9.2 env0 "dev" descCurrentCleanDuration worldZeroTime rfl⟩

/-- Claim C10: `_extract_attributes` maps every attribute it keeps to
`None` (it only checks `hasattr`, never reading the field), and since
every descriptor of `VACUUM_SENSORS` leaves `attributes` at its empty
default, the published extra-attributes map is always empty. -/
theorem claim_C10 :
    (∀ desc data x, x ∈ extractAttributes desc data → x.2 = PyVal.none)
    ∧ (∀ sname desc, (sname, desc) ∈ VACUUM_SENSORS →
        desc.attributes = [] ∧ ∀ data, extractAttributes desc data = []) := by
  constructor
  · intro desc data x hx
    unfold extractAttributes at hx
    simp only [List.mem_map] at hx
    obtain ⟨a, -, ha⟩ := hx
    rw [← ha]
  · intro sname desc hmem
    fin_cases hmem <;> exact ⟨rfl, fun _ => rfl⟩

/-- Witness for C10: a test descriptor that declares attributes maps the
one the data has to `None`, and the table's DnD-start descriptor has no
attributes, so its map is empty. -/
theorem claim_C10_witness :
    (("clean_time", PyVal.none) : String × PyVal).2 = PyVal.none
    ∧ (descDndStart.attributes = []
        ∧ ∀ data, extractAttributes descDndStart data = []) :=
  ⟨claim_C10.1 descAttrsTest (PyVal.status statFull) ("clean_time", PyVal.none)
      (by rw [show extractAttributes descAttrsTest (PyVal.status statFull)
            = [("clean_time", PyVal.none)] from rfl]
          exact List.mem_singleton.mpr rfl),
    claim_C10.2 "dnd_start" descDndStart
      (by unfold VACUUM_SENSORS; exact List.mem_cons_self _ _)⟩

end Roborock
